import Mathlib

/-!
Verification of the multipass-zephyr west commands (VM lifecycle manager).

This file shallowly embeds the Python sources under `west_commands/`
(`multipass_vm.py`, `vbuild.py`, `vtwister.py`, `vclean.py`) as executable
Lean definitions and proves the spec's testable properties about them.

Conventions:
- Machine integers are `Nat`/`Int` with explicit `% 2^w` where overflow
  matters (the MD5 core works modulo `2^32`).
- The multipass CLI is an external collaborator; its effects are modelled
  as a state (`VM`) plus a trace of issued commands (`MCmd`).
- Python `hashlib.md5(s.encode()).hexdigest()` is embedded as a full MD5
  implementation over the UTF-8 bytes of the string (validated below
  against the standard RFC 1321 test vectors).
-/

set_option maxRecDepth 20000

namespace MPZ

/-! ## MD5 (RFC 1321), exact, over byte lists

`vbuild.py` and `vclean.py` both compute
`hashlib.md5(path.encode()).hexdigest()[:8]`; this section embeds that
computation.  Words are `Nat` reduced modulo `2^32`. -/

/-- `2^32`, the word modulus of MD5. -/
def w32 : Nat := 4294967296

/-- Addition modulo `2^32`. -/
def add32 (a b : Nat) : Nat := (a + b) % w32

/-- Bitwise complement within 32 bits. -/
def not32 (x : Nat) : Nat := x ^^^ 4294967295

/-- Left rotation of a 32-bit word by `s` bits. -/
def rotl32 (x s : Nat) : Nat :=
  (((x % w32) <<< s) ||| ((x % w32) >>> (32 - s))) % w32

/-- The 64 MD5 sine-derived constants `K[i] = floor(2^32 * |sin(i+1)|)`. -/
def md5K : List Nat :=
  [0xd76aa478, 0xe8c7b756, 0x242070db, 0xc1bdceee,
   0xf57c0faf, 0x4787c62a, 0xa8304613, 0xfd469501,
   0x698098d8, 0x8b44f7af, 0xffff5bb1, 0x895cd7be,
   0x6b901122, 0xfd987193, 0xa679438e, 0x49b40821,
   0xf61e2562, 0xc040b340, 0x265e5a51, 0xe9b6c7aa,
   0xd62f105d, 0x02441453, 0xd8a1e681, 0xe7d3fbc8,
   0x21e1cde6, 0xc33707d6, 0xf4d50d87, 0x455a14ed,
   0xa9e3e905, 0xfcefa3f8, 0x676f02d9, 0x8d2a4c8a,
   0xfffa3942, 0x8771f681, 0x6d9d6122, 0xfde5380c,
   0xa4beea44, 0x4bdecfa9, 0xf6bb4b60, 0xbebfbc70,
   0x289b7ec6, 0xeaa127fa, 0xd4ef3085, 0x04881d05,
   0xd9d4d039, 0xe6db99e5, 0x1fa27cf8, 0xc4ac5665,
   0xf4292244, 0x432aff97, 0xab9423a7, 0xfc93a039,
   0x655b59c3, 0x8f0ccc92, 0xffeff47d, 0x85845dd1,
   0x6fa87e4f, 0xfe2ce6e0, 0xa3014314, 0x4e0811a1,
   0xf7537e82, 0xbd3af235, 0x2ad7d2bb, 0xeb86d391]

/-- The per-round left-rotation amounts. -/
def md5S : List Nat :=
  [7, 12, 17, 22, 7, 12, 17, 22, 7, 12, 17, 22, 7, 12, 17, 22,
   5,  9, 14, 20, 5,  9, 14, 20, 5,  9, 14, 20, 5,  9, 14, 20,
   4, 11, 16, 23, 4, 11, 16, 23, 4, 11, 16, 23, 4, 11, 16, 23,
   6, 10, 15, 21, 6, 10, 15, 21, 6, 10, 15, 21, 6, 10, 15, 21]

/-- The round function applied at step `i` to `(b, c, d)`. -/
def md5F (i b c d : Nat) : Nat :=
  if i < 16 then (b &&& c) ||| (not32 b &&& d)
  else if i < 32 then (d &&& b) ||| (not32 d &&& c)
  else if i < 48 then b ^^^ c ^^^ d
  else c ^^^ (b ||| not32 d)

/-- The message-word index consumed at step `i`. -/
def md5G (i : Nat) : Nat :=
  if i < 16 then i
  else if i < 32 then (5 * i + 1) % 16
  else if i < 48 then (3 * i + 5) % 16
  else (7 * i) % 16

/-- One of the 64 steps of the MD5 compression function.  `M` is the
current 16-word block. -/
def md5Step (M : List Nat) (st : Nat × Nat × Nat × Nat) (i : Nat) :
    Nat × Nat × Nat × Nat :=
  let (a, b, c, d) := st
  let f := md5F i b c d
  let x := (a + f + md5K.getD i 0 + M.getD (md5G i) 0) % w32
  let nb := add32 b (rotl32 x (md5S.getD i 0))
  (d, nb, b, c)

/-- A 4-byte little-endian group read as a 32-bit word. -/
def leWord (bs : List Nat) : Nat :=
  match bs with
  | [b0, b1, b2, b3] => b0 + b1 * 256 + b2 * 65536 + b3 * 16777216
  | _ => 0

/-- The 16 little-endian words of one 64-byte block. -/
def blockWords (block : List Nat) : List Nat :=
  (block.toChunks 4).map leWord

/-- The MD5 compression function: run the 64 steps over one block and add
the result to the incoming state, word-wise modulo `2^32`. -/
def md5Block (st : Nat × Nat × Nat × Nat) (block : List Nat) :
    Nat × Nat × Nat × Nat :=
  let M := blockWords block
  let (a, b, c, d) := (List.range 64).foldl (md5Step M) st
  (add32 st.1 a, add32 st.2.1 b, add32 st.2.2.1 c, add32 st.2.2.2 d)

/-- MD5 padding: a `0x80` byte, zeros to 56 mod 64, then the bit length
as a 64-bit little-endian quantity. -/
def md5Pad (msg : List Nat) : List Nat :=
  let L := msg.length
  let padLen := (64 + 56 - (L + 1) % 64) % 64
  let bitLen := (8 * L) % (2 ^ 64)
  let lenBytes := (List.range 8).map fun i => bitLen >>> (8 * i) % 256
  msg ++ [0x80] ++ List.replicate padLen 0 ++ lenBytes

/-- The initial MD5 chaining state. -/
def md5Init : Nat × Nat × Nat × Nat :=
  (0x67452301, 0xefcdab89, 0x98badcfe, 0x10325476)

/-- The four bytes of a 32-bit word, little-endian. -/
def wordLEBytes (x : Nat) : List Nat :=
  [x % 256, x / 256 % 256, x / 65536 % 256, x / 16777216 % 256]

/-- The 16-byte MD5 digest of a byte list. -/
def md5Digest (msg : List Nat) : List Nat :=
  let st := ((md5Pad msg).toChunks 64).foldl md5Block md5Init
  wordLEBytes st.1 ++ wordLEBytes st.2.1 ++
    wordLEBytes st.2.2.1 ++ wordLEBytes st.2.2.2

/-- The sixteen lowercase hex digits. -/
def hexChars : List Char := "0123456789abcdef".data

/-- The hex digit for `n % 16`. -/
def hexDigit (n : Nat) : Char := hexChars.getD (n % 16) '0'

/-- The two hex digits of a byte. -/
def byteHex (b : Nat) : List Char := [hexDigit (b / 16), hexDigit b]

/-- The 32 hex characters of `hashlib.md5(bytes).hexdigest()`. -/
def md5HexChars (msg : List Nat) : List Char :=
  ((md5Digest msg).map byteHex).flatten

/-- UTF-8 encoding of one code point (Python `str.encode()` per char). -/
def charUtf8 (c : Char) : List Nat :=
  let n := c.toNat
  if n < 0x80 then [n]
  else if n < 0x800 then
    [0xC0 ||| (n >>> 6), 0x80 ||| (n &&& 0x3F)]
  else if n < 0x10000 then
    [0xE0 ||| (n >>> 12), 0x80 ||| ((n >>> 6) &&& 0x3F), 0x80 ||| (n &&& 0x3F)]
  else
    [0xF0 ||| (n >>> 18), 0x80 ||| ((n >>> 12) &&& 0x3F),
     0x80 ||| ((n >>> 6) &&& 0x3F), 0x80 ||| (n &&& 0x3F)]

/-- Python `s.encode()`: the UTF-8 bytes of a string. -/
def utf8Bytes (s : String) : List Nat :=
  (s.data.map charUtf8).flatten

/-- `hashlib.md5(s.encode()).hexdigest()` as a character list. -/
def md5HexOfString (s : String) : List Char :=
  md5HexChars (utf8Bytes s)

/-! ## Path virtualization (`vbuild.py` / `vtwister.py`)

Canonical absolute POSIX paths (the output of Python's
`Path(...).resolve()`) are modelled as their component lists:
`/a/b/c` is `["a", "b", "c"]` and the filesystem root is `[]`. -/

/-- Render a canonical component list back to the path string. -/
def renderPath (comps : List String) : String :=
  "/" ++ String.intercalate "/" comps

/-- Whether `root`'s components are a leading run of `p`'s components
(`pathlib` compares whole components, so `/a/b` is not an ancestor of
`/a/bc`). -/
def leadsWith : List String → List String → Bool
  | [], _ => true
  | _ :: _, [] => false
  | r :: rs, c :: cs => r == c && leadsWith rs cs

/-- `Path(p).relative_to(root)` on canonical absolute paths: the
remaining components when `root` is an ancestor-or-self, `none` (the
`ValueError` branch) otherwise. -/
def relative_to (root p : List String) : Option (List String) :=
  if leadsWith root p then some (p.drop root.length) else none

/-- `Path(base) / rel`: `pathlib` collapses the empty relative path
(`Path(".")`), so joining `[]` returns `base` itself. -/
def joinGuest (base : String) (rel : List String) : String :=
  String.intercalate "/" (base :: rel)

/-- The external-path guest mount point of `get_vm_path`:
`f"/mnt/ext_{hashlib.md5(host_path.encode()).hexdigest()[:8]}"`. -/
def ext_guest_path (hostPath : String) : String :=
  "/mnt/ext_" ++ String.mk ((md5HexOfString hostPath).take 8)

/-- `get_vm_path` from `vbuild.py` (the closure over `workspace_root`
and `vm_workspace`; `vtwister.py` repeats it verbatim).  Returns the
guest path together with the `vm.mount` requests the call issues. -/
def get_vm_path (workspaceRoot : List String) (vmWorkspace : String)
    (hostPath : List String) : String × List (String × String) :=
  match relative_to workspaceRoot hostPath with
  | some rel => (joinGuest vmWorkspace rel, [])
  | none =>
    let vm_path := ext_guest_path (renderPath hostPath)
    (vm_path, [(renderPath hostPath, vm_path)])

/-- The default guest build directory of `vbuild.py`
(`_do_run_internal`, when no `-d` is given):
`f"/home/ubuntu/builds/{hashlib.md5(source_dir.encode()).hexdigest()[:8]}"`
over the resolved host source directory. -/
def vbuild_default_build_dir (source_dir : String) : String :=
  "/home/ubuntu/builds/" ++ String.mk ((md5HexOfString source_dir).take 8)

/-- The guest build directory removed by `vclean.py` in targeted mode,
computed from the resolved host source directory by the same
`hashlib.md5(...).hexdigest()[:8]` recipe. -/
def vclean_build_dir (source_dir : String) : String :=
  "/home/ubuntu/builds/" ++ String.mk ((md5HexOfString source_dir).take 8)

/-! ## Acceleration sync (`sync_to_local`)

`sync_to_local` shells out to
`rsync -a --delete --exclude=... {mount}/ {local}/` with a fixed
exclusion list.  Guest files are modelled as component lists relative to
the transfer root paired with a directory flag.  The matcher below
implements the rsync filter semantics that the eight patterns of the
source exercise: a leading `/` anchors a pattern at the transfer root, a
trailing `/` restricts it to directories, a pattern without an inner `/`
is matched against a single path component, `*` matches any run of
characters within a component, and excluding a directory excludes
everything beneath it. -/

/-- Glob match of a pattern over one component, both as character
lists.  Only `*` is special — the eight patterns of `sync_to_local` use
no other wildcard.  A `*` absorbs any prefix of the subject, i.e. the
rest of the pattern must match some suffix. -/
def globMatch : List Char → List Char → Bool
  | [], cs => cs.isEmpty
  | p :: ps, cs =>
    if p = '*' then cs.tails.any fun suf => globMatch ps suf
    else
      match cs with
      | [] => false
      | c :: cs2 => p == c && globMatch ps cs2

/-- The exclusion patterns of `sync_to_local`, verbatim from the rsync
command it builds. -/
def excludePatterns : List String :=
  ["/.git/", "/build/", "/builds/", "/twister-out*/",
   "__pycache__/", "*.pyc", "*.o", "/.cache/"]

/-- A parsed rsync pattern: anchoring flag, directory-only flag, and
the body as a character glob.  None of the eight patterns has an
interior slash, so the body is a single-component glob. -/
structure RsyncPat where
  anchored : Bool
  dirOnly : Bool
  pat : List Char
  deriving DecidableEq, Repr

/-- Split an rsync pattern string into its flags and body
(`startsWith "/"`, `endsWith "/"`, and the corresponding strips,
expressed on the character list of the string). -/
def parsePat (s : String) : RsyncPat :=
  let cs := s.data
  let anchored : Bool := cs.take 1 == ['/']
  let dirOnly : Bool := cs.getLast? == some '/'
  let cs1 := if anchored then cs.drop 1 else cs
  let cs2 := if dirOnly then cs1.dropLast else cs1
  ⟨anchored, dirOnly, cs2⟩

/-- Whether a single transferred entry (by itself, ignoring ancestors)
matches a parsed pattern: anchored single-component patterns name a
root-level entry, unanchored ones match the basename at any depth. -/
def matchesPat (pt : RsyncPat) (p : List String) (isDir : Bool) : Bool :=
  (!pt.dirOnly || isDir) &&
  (if pt.anchored then
    match p with
    | [c] => globMatch pt.pat c.data
    | _ => false
  else
    match p.getLast? with
    | some b => globMatch pt.pat b.data
    | none => false)

/-- Whether some exclusion pattern matches this entry directly. -/
def excludedHere (p : List String) (isDir : Bool) : Bool :=
  excludePatterns.any fun s => matchesPat (parsePat s) p isDir

/-- Whether the entry is excluded from the transfer: rsync prunes a
matched directory with everything beneath it, so an entry is excluded
when any nonempty leading run of its components (a strict one is
necessarily a directory) matches a pattern. -/
def entryExcluded (p : List String) (isDir : Bool) : Bool :=
  (List.range p.length).any fun k =>
    if k + 1 < p.length then excludedHere (p.take (k + 1)) true
    else excludedHere p isDir

/-- Modelled from the spec: the file-mirror utility (§6, "archive-mode,
delete-extraneous, exclude-pattern mirroring") is external to the
repository; after a one-way delete-extraneous mirror the destination
holds exactly the source entries the filter admits.  `sync_to_local`
invokes it with `excludePatterns`; this is the destination tree after
the call. -/
def sync_to_local_result (src : List (List String × Bool)) :
    List (List String × Bool) :=
  src.filter fun e => ! entryExcluded e.1 e.2

/-- The exclusions claimed by the spec, stated independently of the
matcher: a root-level `.git`/`build`/`builds`/`.cache` directory or
anything below it, a root-level `twister-out*` directory likewise, a
`__pycache__` directory anywhere, and `*.pyc`/`*.o` entries. -/
def claim_excluded (p : List String) (isDir : Bool) : Prop :=
  (∃ t, p = ".git" :: t ∧ (t ≠ [] ∨ isDir = true)) ∨
  (∃ t, p = "build" :: t ∧ (t ≠ [] ∨ isDir = true)) ∨
  (∃ t, p = "builds" :: t ∧ (t ≠ [] ∨ isDir = true)) ∨
  (∃ t, p = ".cache" :: t ∧ (t ≠ [] ∨ isDir = true)) ∨
  (∃ s t, p = s :: t ∧ "twister-out".data <+: s.data ∧
    (t ≠ [] ∨ isDir = true)) ∨
  (∃ pre suf, p = pre ++ ["__pycache__"] ++ suf ∧
    (suf ≠ [] ∨ isDir = true)) ∨
  (∃ pre b, p = pre ++ [b] ∧
    (".pyc".data <:+ b.data ∨ ".o".data <:+ b.data))

/-! ## VM lifecycle (`multipass_vm.py`)

The multipass CLI is the external collaborator; its observable state is
a `VM` record and every operation returns its successor state together
with the trace of CLI commands it issued.  This is the happy-path
semantics (external commands succeed); the failure control flow of
`_setup_vm` is modelled separately below for the error-handling claim. -/

/-- One multipass CLI invocation. -/
inductive MCmd where
  | list
  | launch (cpus : Int) (mem disk : String)
  | start
  | stop
  | setCpus (n : Int)
  | setMem (m : String)
  | getCpus
  | getMem
  | info
  | mountCmd (host guest : String)
  | unmountCmd (guest : String)
  | execGuest (cmd : String)
  | probe (what : String)
  deriving DecidableEq, Repr

/-- The observable state of the managed instance.  `status` is the
lowercased multipass state string, `"not-found"` when the instance is
absent.  `mounts` maps guest paths to the canonical source paths the
platform records.  `targetCpus`/`targetMem` are the attributes
`ensure_resources` stashes on the Python object when the instance does
not exist yet. -/
structure VM where
  status : String
  cpus : Int
  mem : String
  tools : List String
  hasVenv : Bool
  hasSdk : Bool
  mounts : List (String × String)
  targetCpus : Option Int
  targetMem : Option String
  deriving DecidableEq, Repr

/-- `MultipassVM.default_cpus`. -/
def default_cpus : Int := 2

/-- `MultipassVM.default_memory`. -/
def default_memory : String := "4G"

/-- `MultipassVM.disk`, fixed at creation. -/
def disk : String := "20G"

/-- `get_status`: one `multipass list` query; `"not-found"` when the
name does not appear. -/
def get_status (s : VM) : String × List MCmd := (s.status, [MCmd.list])

/-- The executables `_is_setup` resolves on the guest PATH, in probe
order. -/
def requiredTools : List String := ["west", "cmake", "ninja", "brctl", "uv"]

/-- The tool-probe loop of `_is_setup`: checks each executable in turn
and short-circuits at the first missing one. -/
def checkTools (present : List String) : List String → Bool × List MCmd
  | [] => (true, [])
  | t :: ts =>
    if present.contains t then
      let r := checkTools present ts
      (r.1, MCmd.probe t :: r.2)
    else (false, [MCmd.probe t])

/-- `_is_setup`: read-only probes for the required executables, the
venv directory and the SDK directory, short-circuiting on the first
failure. -/
def is_setup (s : VM) : Bool × List MCmd :=
  let r := checkTools s.tools requiredTools
  if r.1 then
    let cs := r.2 ++ [MCmd.probe "venv"]
    if s.hasVenv then
      let cs2 := cs ++ [MCmd.probe "sdk"]
      if s.hasSdk then (true, cs2) else (false, cs2)
    else (false, cs)
  else (false, r.2)

/-- `_setup_vm` under the happy-path semantics: issues its fixed guest
command sequence (tags name the steps; the SDK directory verification
is a read-only probe) and establishes every provisioning postcondition.
The per-step failure behaviour is `setup_vm_model` below. -/
def setup_vm (s : VM) : VM × List MCmd :=
  ({ s with tools := requiredTools, hasVenv := true, hasSdk := true },
   [MCmd.execGuest "sshfs-workaround", MCmd.execGuest "apt-packages",
    MCmd.execGuest "sdk-setup", MCmd.probe "sdk-dir",
    MCmd.execGuest "uv-install", MCmd.execGuest "uv-venv",
    MCmd.execGuest "west-pip-install",
    MCmd.execGuest "bashrc-toolchain-variant",
    MCmd.execGuest "bashrc-sdk-install-dir", MCmd.execGuest "bashrc-path",
    MCmd.execGuest "ccache-max-size", MCmd.execGuest "ccache-cache-dir"])

/-- `ensure_vm` (the `zephyr_base_path` argument only feeds the SDK
version detection inside `_setup_vm` and does not affect control flow):
`not-found` launches at the requested-or-default sizing (a fresh guest
has nothing provisioned and no mounts) and provisions; `stopped` starts
and provisions unless `_is_setup` passes; `running` provisions unless
`_is_setup` passes; any other state string falls through the
`if`/`elif` chain untouched. -/
def ensure_vm (s : VM) (cpus : Option Int) (memory : Option String) :
    VM × List MCmd :=
  let st := get_status s
  let target_cpus := cpus.getD default_cpus
  let target_mem := memory.getD default_memory
  if st.1 = "not-found" then
    let s1 : VM :=
      { s with status := "running", cpus := target_cpus, mem := target_mem,
               tools := [], hasVenv := false, hasSdk := false, mounts := [] }
    let r := setup_vm s1
    (r.1, st.2 ++ [MCmd.launch target_cpus target_mem disk] ++ r.2)
  else if st.1 = "stopped" then
    let s1 : VM := { s with status := "running" }
    let chk := is_setup s1
    if chk.1 then (s1, st.2 ++ [MCmd.start] ++ chk.2)
    else
      let r := setup_vm s1
      (r.1, st.2 ++ [MCmd.start] ++ chk.2 ++ r.2)
  else if st.1 = "running" then
    let chk := is_setup s
    if chk.1 then (s, st.2 ++ chk.2)
    else
      let r := setup_vm s
      (r.1, st.2 ++ chk.2 ++ r.2)
  else (s, st.2)

/-- Host introspection inputs of `get_host_resources`: the logical core
count and the per-OS total-memory reading, `none` when the reading
raised (the code then falls back to assuming 8 GiB). -/
structure HostInfo where
  cpuCount : Int
  memBytes : Option Int
  deriving DecidableEq, Repr

/-- One GiB in bytes. -/
def GiB : Int := 1073741824

/-- `get_host_resources`, in exact integer arithmetic.  Python computes
`int(total * 0.75)` and `int(limit / 2**30)` through IEEE doubles;
since `0.75` and `2**30` are powers-of-two scalings, those coincide
with the exact truncations `Int.tdiv (3 * total) 4` (for `total ≥ 0`)
and `Int.tdiv limit GiB` for every total below `2^51` bytes, far
beyond any host.  `Int.tdiv` truncates toward zero exactly as Python's
`int(float)` does. -/
def get_host_resources (h : HostInfo) : Int × String :=
  let safe_cpus := max 2 (h.cpuCount - 2)
  let total := h.memBytes.getD (8 * GiB)
  let limit := min (Int.tdiv (3 * total) 4) (total - 4 * GiB)
  let safe_memory_gb := max 4 (Int.tdiv limit GiB)
  (safe_cpus, toString safe_memory_gb ++ "G")

/-- `get_current_resources`: two `multipass get` reads of the
configured CPU and memory keys. -/
def get_current_resources (s : VM) : (Int × String) × List MCmd :=
  ((s.cpus, s.mem), [MCmd.getCpus, MCmd.getMem])

/-- `ensure_resources`: resolve the profile target; when the instance
is absent, stash the target for a following `ensure_vm`; otherwise
compare with the current settings and, only on a difference, stop a
running instance, set both keys and start. -/
def ensure_resources (h : HostInfo) (profile : String) (s : VM) :
    VM × List MCmd :=
  let st := get_status s
  let target :=
    if profile = "high" then get_host_resources h
    else (default_cpus, default_memory)
  if st.1 = "not-found" then
    ({ s with targetCpus := some target.1, targetMem := some target.2 }, st.2)
  else
    let cur := get_current_resources s
    if cur.1.1 ≠ target.1 ∨ cur.1.2 ≠ target.2 then
      let st2 := get_status s
      let stopCmds := if st2.1 = "running" then [MCmd.stop] else []
      ({ s with status := "running", cpus := target.1, mem := target.2 },
       st.2 ++ cur.2 ++ st2.2 ++ stopCmds ++
         [MCmd.setCpus target.1, MCmd.setMem target.2, MCmd.start])
    else (s, st.2 ++ cur.2)

/-- `mount`: create the guest directory, read the mount table from
`multipass info`, no-op when the guest path is already bound to the
same canonical source (`Path(host).expanduser().resolve()`, supplied as
`canon`), unmount first when bound to a different source, then mount.
The platform records the canonical source for a new binding. -/
def mount (canon : String → String) (s : VM) (host_path vm_path : String) :
    VM × List MCmd :=
  let c0 := [MCmd.execGuest ("sudo mkdir -p " ++ vm_path), MCmd.info]
  match s.mounts.lookup vm_path with
  | some src =>
    if src = canon host_path then (s, c0)
    else
      ({ s with mounts := (vm_path, canon host_path) ::
                  s.mounts.filter fun e => e.1 != vm_path },
       c0 ++ [MCmd.unmountCmd vm_path, MCmd.mountCmd host_path vm_path])
  | none =>
    ({ s with mounts := (vm_path, canon host_path) :: s.mounts },
     c0 ++ [MCmd.mountCmd host_path vm_path])

/-- Read-only CLI commands: inventory/config/mount-table queries and
the existence probes of `_is_setup`.  Everything else mutates the
instance or runs work inside it. -/
def isReadOnlyCmd : MCmd → Bool
  | MCmd.list => true
  | MCmd.getCpus => true
  | MCmd.getMem => true
  | MCmd.info => true
  | MCmd.probe _ => true
  | _ => false

/-- The number of state-changing (provisioning) commands in a trace. -/
def provisioningActions (t : List MCmd) : Nat :=
  t.countP fun c => ! isReadOnlyCmd c

/-- The number of `multipass mount` commands in a trace. -/
def countMountCmds (t : List MCmd) : Nat :=
  t.countP fun c =>
    match c with
    | MCmd.mountCmd _ _ => true
    | _ => false

/-- The number of `multipass unmount` commands in a trace. -/
def countUnmountCmds (t : List MCmd) : Nat :=
  t.countP fun c =>
    match c with
    | MCmd.unmountCmd _ => true
    | _ => false

/-! ## `_setup_vm` failure control flow

`exec_shell(cmd, stream=True, check=True)` runs
`subprocess.run(...)` *without* `check` and returns the exit code, so
on the streaming path (the default) the `check` flag is dead and a
nonzero exit is returned, not raised.  `_run_cmd(..., check=True)`
raises on nonzero exit.  `_setup_vm` is modelled as a function of the
exit codes of the guest commands it issues, in order; the result is
the list of steps that ran, as `Except.error` when a raise escaped
`_setup_vm` after that step. -/

/-- `exec_shell`: with `stream=True` the exit code is returned and
`check` is ignored; with `stream=False` it defers to `_run_cmd`. -/
def exec_shell_model (rc : Int) (stream check : Bool) : Except Unit Int :=
  if stream then Except.ok rc
  else if check && rc != 0 then Except.error ()
  else Except.ok rc

/-- `_run_cmd`: raises `CalledProcessError` on nonzero exit iff
`check`. -/
def runCmd_model (rc : Int) (check : Bool) : Except Unit Int :=
  if check && rc != 0 then Except.error () else Except.ok rc

/-- Record one executed step; a raised step aborts with the step list
so far. -/
def runStep (acc : List String) (name : String) (r : Except Unit Int) :
    Except (List String) (List String) :=
  match r with
  | Except.ok _ => Except.ok (acc ++ [name])
  | Except.error _ => Except.error (acc ++ [name])

/-- `_setup_vm`, step by step.  `rc i` is the exit code of the i-th
guest command.  Steps 0–2 and 4–6 go through `exec_shell` with its
default `stream=True` (step 0, the mount-helper workaround, explicitly
passes `check=False`); step 3 is the explicit
`_run_cmd(['...test -d /home/ubuntu/zephyr-sdk'], check=False)`
verification followed by `raise RuntimeError` on nonzero; steps 7–11
are the environment-export commands run through
`_run_cmd(check=True)`. -/
def setup_vm_model (rc : Nat → Int) : Except (List String) (List String) := do
  let a ← runStep [] "sshfs-workaround" (exec_shell_model (rc 0) true false)
  let a ← runStep a "apt-packages" (exec_shell_model (rc 1) true true)
  let a ← runStep a "sdk-setup" (exec_shell_model (rc 2) true true)
  let a ← runStep a "sdk-dir-verify"
    (if rc 3 != 0 then Except.error () else Except.ok (rc 3))
  let a ← runStep a "uv-install" (exec_shell_model (rc 4) true true)
  let a ← runStep a "uv-venv" (exec_shell_model (rc 5) true true)
  let a ← runStep a "west-pip-install" (exec_shell_model (rc 6) true true)
  let a ← runStep a "bashrc-toolchain-variant" (runCmd_model (rc 7) true)
  let a ← runStep a "bashrc-sdk-install-dir" (runCmd_model (rc 8) true)
  let a ← runStep a "bashrc-path" (runCmd_model (rc 9) true)
  let a ← runStep a "ccache-max-size" (runCmd_model (rc 10) true)
  let a ← runStep a "ccache-cache-dir" (runCmd_model (rc 11) true)
  pure a

/-- All twelve step names of `_setup_vm`, in execution order. -/
def allSetupSteps : List String :=
  ["sshfs-workaround", "apt-packages", "sdk-setup", "sdk-dir-verify",
   "uv-install", "uv-venv", "west-pip-install", "bashrc-toolchain-variant",
   "bashrc-sdk-install-dir", "bashrc-path", "ccache-max-size",
   "ccache-cache-dir"]

/-! ## Front-end scale bracket (`vbuild.py` / `vtwister.py`)

`do_run` scales up, runs `_do_run_internal` inside `try`, and in the
`finally` clause scales back down unless `--keep-warm` was given — the
scale-down therefore runs whether the internal operation returned or
raised.  The internal operation is a parameter: it transforms the VM
state, issues a trace, and either returns or raises (`Except.error`),
exactly the shape `try`/`finally` observes. -/

/-- `VBuild.do_run`: high-profile scale-up, the bracketed internal run,
and the `finally`-guaranteed low-profile scale-down. -/
def vbuild_do_run (h : HostInfo) (keepWarm : Bool) (s : VM)
    (internal : VM → Except String Unit × VM × List MCmd) :
    Except String Unit × VM × List MCmd :=
  let up := ensure_resources h "high" s
  let r := internal up.1
  if keepWarm then (r.1, r.2.1, up.2 ++ r.2.2)
  else
    let down := ensure_resources h "low" r.2.1
    (r.1, down.1, up.2 ++ r.2.2 ++ down.2)

/-- `VTwister.do_run`: the identical bracket around its own internal
run. -/
def vtwister_do_run (h : HostInfo) (keepWarm : Bool) (s : VM)
    (internal : VM → Except String Unit × VM × List MCmd) :
    Except String Unit × VM × List MCmd :=
  let up := ensure_resources h "high" s
  let r := internal up.1
  if keepWarm then (r.1, r.2.1, up.2 ++ r.2.2)
  else
    let down := ensure_resources h "low" r.2.1
    (r.1, down.1, up.2 ++ r.2.2 ++ down.2)

/-- The spec's formula for the high-profile memory target, in GiB:
`max(4 GiB, min(0.75 * total, total - 4 GiB))` floored to whole GiB,
evaluated in exact rational arithmetic. -/
def spec_high_memory_gb (total : Int) : Int :=
  ⌊max ((4 * GiB : Int) : ℚ)
      (min ((3 / 4 : ℚ) * (total : ℚ)) ((total : ℚ) - 4 * (GiB : ℚ))) /
    ((GiB : Int) : ℚ)⌋

/-- A concrete provisioned running instance, used by witnesses. -/
def vmReady : VM :=
  ⟨"running", 2, "4G", ["west", "cmake", "ninja", "brctl", "uv"],
   true, true, [], none, none⟩

/-- `vmReady` with an existing mount binding at `/mnt/ext_a`. -/
def vmBound : VM := { vmReady with mounts := [("/mnt/ext_a", "/old/src")] }

/-- A concrete stopped, unprovisioned instance, used by witnesses. -/
def vmStopped : VM := ⟨"stopped", 2, "4G", [], false, false, [], none, none⟩

/-! ## Theorems -/

/-- RFC 1321 test vector: the MD5 of the empty message, validating the
embedding of `hashlib.md5`. -/
theorem md5_vector_empty :
    md5HexChars [] = "d41d8cd98f00b204e9800998ecf8427e".data := by decide

/-- RFC 1321 test vector: the MD5 of `"abc"`. -/
theorem md5_vector_abc :
    md5HexOfString "abc" = "900150983cd24fb0d6963f7d28e17f72".data := by
  decide

/-- C1: the claim reads "every step after the initial best-effort
mount-helper workaround step aborts the whole provisioning operation
whenever it fails".  The code does not do this: `exec_shell` with its
default `stream=True` returns `subprocess.run(...).returncode` and
never consults `check`, so when the mandatory OS-package-install step
exits 100 (and every other command succeeds) `_setup_vm` ignores the
failure, runs every remaining step, and returns normally instead of
aborting.  The explicit `check=False` on the workaround step alone
shows the author believed the default `check=True` made the other
steps fatal, so this is recorded as a code bug rather than a spec
error. -/
theorem C1_failed_mandatory_step_not_fatal :
    setup_vm_model (fun i => if i = 1 then 100 else 0) =
      Except.ok allSetupSteps := rfl

/-- C10: for the same resolved host source directory, the default
guest build directory of `vbuild` and the directory removed by a
targeted `vclean` coincide, and both are `/home/ubuntu/builds/`
followed by the first 8 hex digits of the MD5 of the canonical source
path. -/
theorem C10_vclean_targets_vbuild_default_dir (source_dir : String) :
    vclean_build_dir source_dir = vbuild_default_build_dir source_dir ∧
    vbuild_default_build_dir source_dir =
      "/home/ubuntu/builds/" ++
        String.mk ((md5HexOfString source_dir).take 8) :=
  ⟨rfl, rfl⟩

/-- C9: when the status probe reports a state outside
`not-found`/`stopped`/`running` (for example `suspended`), `ensure_vm`
issues nothing beyond the `multipass list` query and leaves the
instance state untouched. -/
theorem C9_unknown_state_is_noop (s : VM) (c : Option Int)
    (m : Option String) (h1 : s.status ≠ "not-found")
    (h2 : s.status ≠ "stopped") (h3 : s.status ≠ "running") :
    ensure_vm s c m = (s, [MCmd.list]) := by
  simp [ensure_vm, get_status, h1, h2, h3]

/-- Witness for C9 at a concrete suspended instance. -/
theorem C9_unknown_state_is_noop_witness :
    ensure_vm ⟨"suspended", 2, "4G", [], false, false, [], none, none⟩
        none none =
      (⟨"suspended", 2, "4G", [], false, false, [], none, none⟩,
       [MCmd.list]) :=
  C9_unknown_state_is_noop _ _ _ (by decide) (by decide) (by decide)

/-- C4: mounting the same `(host, guest)` pair twice issues exactly one
`multipass mount` and no `multipass unmount` (the second call is a
no-op because the platform records the canonical source), while
mounting a different host path onto an already-bound guest path issues
exactly one unmount followed by one mount. -/
theorem C4_mount_idempotence (canon : String → String) (s : VM)
    (hostA hostB guest : String) :
    (s.mounts.lookup guest = none →
      countMountCmds ((mount canon s hostA guest).2 ++
        (mount canon (mount canon s hostA guest).1 hostA guest).2) = 1 ∧
      countUnmountCmds ((mount canon s hostA guest).2 ++
        (mount canon (mount canon s hostA guest).1 hostA guest).2) = 0 ∧
      (mount canon (mount canon s hostA guest).1 hostA guest).1 =
        (mount canon s hostA guest).1) ∧
    (∀ src, s.mounts.lookup guest = some src → canon hostB ≠ src →
      (mount canon s hostB guest).2 =
        [MCmd.execGuest ("sudo mkdir -p " ++ guest), MCmd.info,
         MCmd.unmountCmd guest, MCmd.mountCmd hostB guest]) := by
  constructor
  · intro hnone
    simp [mount, hnone, countMountCmds, countUnmountCmds]
  · intro src hsome hne
    simp only [mount, hsome]
    rw [if_neg (fun h => hne h.symm)]
    rfl

/-- The tool-probe loop only issues read-only probe commands. -/
theorem checkTools_probes (present ts : List String) :
    ∃ names : List String,
      (checkTools present ts).2 = names.map MCmd.probe := by
  induction ts with
  | nil => exact ⟨[], rfl⟩
  | cons t ts ih =>
    by_cases hp : t ∈ present
    · obtain ⟨names, hn⟩ := ih
      exact ⟨t :: names, by simp [checkTools, hp, hn]⟩
    · exact ⟨[t], by simp [checkTools, hp]⟩

/-- `_is_setup` only issues read-only probe commands. -/
theorem is_setup_probes (s : VM) :
    ∃ names : List String, (is_setup s).2 = names.map MCmd.probe := by
  obtain ⟨names, hn⟩ := checkTools_probes s.tools requiredTools
  by_cases h1 : (checkTools s.tools requiredTools).1
  · by_cases h2 : s.hasVenv
    · by_cases h3 : s.hasSdk
      · exact ⟨names ++ ["venv", "sdk"], by simp [is_setup, h1, h2, h3, hn]⟩
      · exact ⟨names ++ ["venv", "sdk"], by simp [is_setup, h1, h2, h3, hn]⟩
    · exact ⟨names ++ ["venv"], by simp [is_setup, h1, h2, hn]⟩
  · exact ⟨names, by simp [is_setup, h1, hn]⟩

/-- Probe traces contain no provisioning action. -/
theorem countP_probes (names : List String) :
    (names.map MCmd.probe).countP (fun c => ! isReadOnlyCmd c) = 0 := by
  induction names with
  | nil => rfl
  | cons n ns ih => simp [List.countP_cons, isReadOnlyCmd, ih]

/-- A `multipass list` query followed by probes performs zero
provisioning actions. -/
theorem provisioning_probe_free (names : List String) :
    provisioningActions (MCmd.list :: names.map MCmd.probe) = 0 := by
  simp [provisioningActions, List.countP_cons, isReadOnlyCmd, countP_probes]

/-- After `_setup_vm`, the read-only `_is_setup` check passes with the
full probe sequence. -/
theorem is_setup_setup_vm (s : VM) :
    is_setup (setup_vm s).1 =
      (true, [MCmd.probe "west", MCmd.probe "cmake", MCmd.probe "ninja",
              MCmd.probe "brctl", MCmd.probe "uv", MCmd.probe "venv",
              MCmd.probe "sdk"]) := rfl

/-- `ensure_vm` leaves a known-state instance running and provisioned. -/
theorem ensure_vm_post (s : VM) (c : Option Int) (m : Option String)
    (hs : s.status = "not-found" ∨ s.status = "stopped" ∨
      s.status = "running") :
    (ensure_vm s c m).1.status = "running" ∧
    (is_setup (ensure_vm s c m).1).1 = true := by
  rcases hs with h | h | h
  · constructor
    · simp [ensure_vm, get_status, h, setup_vm]
    · simp [ensure_vm, get_status, h, is_setup_setup_vm]
  · by_cases hchk : (is_setup { s with status := "running" }).1 = true
    · constructor
      · simp [ensure_vm, get_status, h, hchk]
      · simp [ensure_vm, get_status, h, hchk]
    · constructor
      · simp [ensure_vm, get_status, h, hchk, setup_vm]
      · simp [ensure_vm, get_status, h, hchk, is_setup_setup_vm]
  · by_cases hchk : (is_setup s).1 = true
    · constructor
      · simp [ensure_vm, get_status, h, hchk]
      · simp [ensure_vm, get_status, h, hchk]
    · constructor
      · simp [ensure_vm, get_status, h, hchk, setup_vm]
      · simp [ensure_vm, get_status, h, hchk, is_setup_setup_vm]

/-- C5: after a first `ensure_vm` from any recognised state, a second
`ensure_vm` changes nothing: it issues exactly the `multipass list`
status query plus the read-only `_is_setup` probes, performs zero
provisioning actions, and returns the state unchanged. -/
theorem C5_ensure_ready_idempotent (s : VM) (c1 c2 : Option Int)
    (m1 m2 : Option String)
    (hs : s.status = "not-found" ∨ s.status = "stopped" ∨
      s.status = "running") :
    (ensure_vm (ensure_vm s c1 m1).1 c2 m2).1 = (ensure_vm s c1 m1).1 ∧
    (ensure_vm (ensure_vm s c1 m1).1 c2 m2).2 =
      MCmd.list :: (is_setup (ensure_vm s c1 m1).1).2 ∧
    provisioningActions (ensure_vm (ensure_vm s c1 m1).1 c2 m2).2 = 0 := by
  obtain ⟨hrun, hset⟩ := ensure_vm_post s c1 m1 hs
  generalize hg : (ensure_vm s c1 m1).1 = s1 at *
  have key : ensure_vm s1 c2 m2 = (s1, MCmd.list :: (is_setup s1).2) := by
    simp [ensure_vm, get_status, hrun, hset]
  refine ⟨by rw [key], by rw [key], ?_⟩
  rw [key]
  obtain ⟨names, hn⟩ := is_setup_probes s1
  rw [hn]
  exact provisioning_probe_free names

/-- Witness for C5: a stopped unprovisioned instance is provisioned by
the first call and untouched by the second. -/
theorem C5_ensure_ready_idempotent_witness :
    (ensure_vm (ensure_vm vmStopped none none).1 none none).1 =
      (ensure_vm vmStopped none none).1 ∧
    (ensure_vm (ensure_vm vmStopped none none).1 none none).2 =
      MCmd.list :: (is_setup (ensure_vm vmStopped none none).1).2 ∧
    provisioningActions
      (ensure_vm (ensure_vm vmStopped none none).1 none none).2 = 0 :=
  C5_ensure_ready_idempotent vmStopped none none none none (by decide)

/-- Witness for C4 at concrete paths: a fresh binding mounted twice
(one mount, no unmount), then a rebinding of the same guest path (one
unmount then one mount). -/
theorem C4_mount_idempotence_witness :
    (countMountCmds ((mount id vmReady "/etc/external" "/mnt/ext_a").2 ++
        (mount id (mount id vmReady "/etc/external" "/mnt/ext_a").1
          "/etc/external" "/mnt/ext_a").2) = 1 ∧
      countUnmountCmds ((mount id vmReady "/etc/external" "/mnt/ext_a").2 ++
        (mount id (mount id vmReady "/etc/external" "/mnt/ext_a").1
          "/etc/external" "/mnt/ext_a").2) = 0 ∧
      (mount id (mount id vmReady "/etc/external" "/mnt/ext_a").1
        "/etc/external" "/mnt/ext_a").1 =
        (mount id vmReady "/etc/external" "/mnt/ext_a").1) ∧
    (mount id vmBound "/etc/new" "/mnt/ext_a").2 =
      [MCmd.execGuest ("sudo mkdir -p " ++ "/mnt/ext_a"), MCmd.info,
       MCmd.unmountCmd "/mnt/ext_a", MCmd.mountCmd "/etc/new" "/mnt/ext_a"] :=
  ⟨(C4_mount_idempotence id vmReady "/etc/external" "/etc/external"
      "/mnt/ext_a").1 rfl,
   (C4_mount_idempotence id vmBound "/etc/external" "/etc/new"
      "/mnt/ext_a").2 "/old/src" rfl (by decide)⟩

/-- `ensure_resources 'low'` on an existing instance always leaves the
configured CPU count and memory at the low-profile defaults, whether or
not a reconfiguration was needed. -/
theorem ensure_resources_low_state (h : HostInfo) (s : VM)
    (hnf : s.status ≠ "not-found") :
    (ensure_resources h "low" s).1.cpus = default_cpus ∧
    (ensure_resources h "low" s).1.mem = default_memory := by
  by_cases hcpu : s.cpus = default_cpus
  · by_cases hmem : s.mem = default_memory
    · simp [ensure_resources, get_status, get_current_resources, hnf,
        hcpu, hmem]
    · simp [ensure_resources, get_status, get_current_resources, hnf, hmem]
  · simp [ensure_resources, get_status, get_current_resources, hnf, hcpu]

/-- C2: on an existing instance whose current CPU/memory already equal
the resolved target, `ensure_resources` issues only the status query
and the two config reads — no stop, set or start; and scaling
low→high→low with no external change restores the original low
CPU/memory values. -/
theorem C2_profile_noop_and_roundtrip (h : HostInfo) (s : VM)
    (hs : s.status = "stopped" ∨ s.status = "running") :
    (∀ profile,
      (s.cpus, s.mem) =
        (if profile = "high" then get_host_resources h
         else (default_cpus, default_memory)) →
      ensure_resources h profile s =
        (s, [MCmd.list, MCmd.getCpus, MCmd.getMem])) ∧
    (s.cpus = default_cpus → s.mem = default_memory →
      (ensure_resources h "low" (ensure_resources h "high"
          (ensure_resources h "low" s).1).1).1.cpus = s.cpus ∧
      (ensure_resources h "low" (ensure_resources h "high"
          (ensure_resources h "low" s).1).1).1.mem = s.mem) := by
  have hnf : s.status ≠ "not-found" := by
    rcases hs with h' | h' <;> simp [h']
  have noop : ∀ profile,
      (s.cpus, s.mem) =
        (if profile = "high" then get_host_resources h
         else (default_cpus, default_memory)) →
      ensure_resources h profile s =
        (s, [MCmd.list, MCmd.getCpus, MCmd.getMem]) := by
    intro profile hcur
    obtain ⟨h1, h2⟩ := Prod.ext_iff.mp hcur
    simp only [ensure_resources, get_status, get_current_resources]
    rw [if_neg hnf, if_neg (by simp [← h1, ← h2])]
    rfl
  refine ⟨noop, ?_⟩
  intro hc hm
  rw [noop "low" (by simp [hc, hm])]
  by_cases ht : (s.cpus, s.mem) = get_host_resources h
  · rw [noop "high" (by simpa using ht)]
    rw [noop "low" (by simp [hc, hm])]
    exact ⟨rfl, rfl⟩
  · have hcond : s.cpus ≠ (get_host_resources h).1 ∨
        s.mem ≠ (get_host_resources h).2 := by
      by_contra hcon
      push_neg at hcon
      exact ht (by rw [hcon.1, hcon.2])
    have hhigh : (ensure_resources h "high" s).1 =
        { s with status := "running", cpus := (get_host_resources h).1,
                 mem := (get_host_resources h).2 } := by
      rcases hcond with hcc | hmm
      · simp [ensure_resources, get_status, get_current_resources, hnf, hcc]
      · simp [ensure_resources, get_status, get_current_resources, hnf, hmm]
    rw [hhigh]
    have hlow := ensure_resources_low_state h
      { s with status := "running", cpus := (get_host_resources h).1,
               mem := (get_host_resources h).2 } (by simp)
    rw [hc, hm]
    exact hlow

/-- Witness for C2 at a concrete running low-profile instance and a
concrete host (8 cores, 32 GiB). -/
theorem C2_profile_noop_and_roundtrip_witness :
    ensure_resources ⟨8, some 34359738368⟩ "low" vmReady =
      (vmReady, [MCmd.list, MCmd.getCpus, MCmd.getMem]) ∧
    (ensure_resources ⟨8, some 34359738368⟩ "low"
      (ensure_resources ⟨8, some 34359738368⟩ "high"
        (ensure_resources ⟨8, some 34359738368⟩ "low" vmReady).1).1).1.cpus =
      vmReady.cpus := by
  have h := C2_profile_noop_and_roundtrip ⟨8, some 34359738368⟩ vmReady
    (by decide)
  exact ⟨h.1 "low" (by decide), (h.2 (by decide) (by decide)).1⟩

/-- C7: with `--keep-warm` not given, `do_run` of both `vbuild` and
`vtwister` applies the low resource profile after the internal
operation on every exit path — the result propagates the internal
outcome (return or raise) unchanged, the command trace is the
high-profile trace, then the internal trace, then the low-profile
trace, and the final configuration is back at the low-profile
defaults. -/
theorem C7_scale_down_on_every_exit (h : HostInfo) (s s2 : VM)
    (r : Except String Unit) (t2 : List MCmd)
    (hs2 : s2.status = "stopped" ∨ s2.status = "running") :
    vbuild_do_run h false s (fun _ => (r, s2, t2)) =
      (r, (ensure_resources h "low" s2).1,
       (ensure_resources h "high" s).2 ++ t2 ++
         (ensure_resources h "low" s2).2) ∧
    (vbuild_do_run h false s (fun _ => (r, s2, t2))).2.1.cpus =
      default_cpus ∧
    (vbuild_do_run h false s (fun _ => (r, s2, t2))).2.1.mem =
      default_memory ∧
    vtwister_do_run h false s (fun _ => (r, s2, t2)) =
      vbuild_do_run h false s (fun _ => (r, s2, t2)) := by
  have hnf : s2.status ≠ "not-found" := by
    rcases hs2 with h' | h' <;> simp [h']
  obtain ⟨hcp, hmm⟩ := ensure_resources_low_state h s2 hnf
  refine ⟨rfl, ?_, ?_, rfl⟩
  · simpa [vbuild_do_run] using hcp
  · simpa [vbuild_do_run] using hmm

/-- Witness for C7: a raising internal operation on a concrete host
still ends at the low profile. -/
theorem C7_scale_down_on_every_exit_witness :
    vbuild_do_run ⟨8, some 34359738368⟩ false vmReady
        (fun _ => (Except.error "build failed", vmReady, [])) =
      (Except.error "build failed",
       (ensure_resources ⟨8, some 34359738368⟩ "low" vmReady).1,
       (ensure_resources ⟨8, some 34359738368⟩ "high" vmReady).2 ++ [] ++
         (ensure_resources ⟨8, some 34359738368⟩ "low" vmReady).2) ∧
    (vbuild_do_run ⟨8, some 34359738368⟩ false vmReady
        (fun _ => (Except.error "build failed", vmReady, []))).2.1.cpus =
      default_cpus ∧
    (vbuild_do_run ⟨8, some 34359738368⟩ false vmReady
        (fun _ => (Except.error "build failed", vmReady, []))).2.1.mem =
      default_memory ∧
    vtwister_do_run ⟨8, some 34359738368⟩ false vmReady
        (fun _ => (Except.error "build failed", vmReady, [])) =
      vbuild_do_run ⟨8, some 34359738368⟩ false vmReady
        (fun _ => (Except.error "build failed", vmReady, [])) :=
  C7_scale_down_on_every_exit ⟨8, some 34359738368⟩ vmReady vmReady
    (Except.error "build failed") [] (by decide)

/-- A component list is always a leading run of itself extended. -/
theorem leadsWith_append (root rest : List String) :
    leadsWith root (root ++ rest) = true := by
  induction root with
  | nil => rfl
  | cons r rs ih => simp [leadsWith, ih]

/-- `relative_to` strips an ancestor-or-self workspace root. -/
theorem relative_to_append (root rest : List String) :
    relative_to root (root ++ rest) = some rest := by
  simp only [relative_to, leadsWith_append, if_true]
  exact congrArg some (List.drop_left root rest)

/-- An MD5 digest is 16 bytes. -/
theorem md5Digest_length (msg : List Nat) : (md5Digest msg).length = 16 := by
  simp [md5Digest, wordLEBytes]

/-- An MD5 hexdigest is 32 characters. -/
theorem md5HexChars_length (msg : List Nat) :
    (md5HexChars msg).length = 32 := by
  have key : ∀ l : List Nat, ((l.map byteHex).flatten).length = 2 * l.length := by
    intro l
    induction l with
    | nil => rfl
    | cons b bs ih => simp [byteHex, ih]; omega
  simp [md5HexChars, key, md5Digest_length]

/-- Every output of `hexDigit` is one of the sixteen hex characters. -/
theorem hexDigit_mem (n : Nat) : hexDigit n ∈ hexChars := by
  have h : n % 16 < 16 := Nat.mod_lt _ (by norm_num)
  unfold hexDigit
  set k := n % 16 with hk
  interval_cases k <;> decide

/-- Every character of an MD5 hexdigest is a hex character. -/
theorem md5HexChars_mem (msg : List Nat) (c : Char)
    (hc : c ∈ md5HexChars msg) : c ∈ hexChars := by
  simp only [md5HexChars, List.mem_flatten, List.mem_map] at hc
  obtain ⟨l, ⟨b, _, rfl⟩, hcl⟩ := hc
  simp only [byteHex, List.mem_cons, List.mem_singleton] at hcl
  rcases hcl with rfl | rfl | h
  · exact hexDigit_mem _
  · exact hexDigit_mem _
  · simp at h

/-- C3: for a canonical host path inside the workspace (root or
descendant), `get_vm_path` joins the guest workspace root with the
relative components and issues no mount; for a path outside, it
returns `/mnt/ext_` followed by the first 8 characters of the MD5
hexdigest of the canonical host path string — a deterministic
8-hex-digit fingerprint — and requests exactly that mount. -/
theorem C3_path_virtualization (root : List String) (vmws : String)
    (host : List String) :
    (∀ rel, host = root ++ rel →
      get_vm_path root vmws host = (joinGuest vmws rel, [])) ∧
    (leadsWith root host = false →
      get_vm_path root vmws host =
        (ext_guest_path (renderPath host),
         [(renderPath host, ext_guest_path (renderPath host))]) ∧
      ((md5HexOfString (renderPath host)).take 8).length = 8 ∧
      ∀ c ∈ (md5HexOfString (renderPath host)).take 8, c ∈ hexChars) := by
  constructor
  · intro rel hr
    subst hr
    simp [get_vm_path, relative_to_append]
  · intro hnot
    refine ⟨by simp [get_vm_path, relative_to, hnot], ?_, ?_⟩
    · simp [md5HexOfString, List.length_take, md5HexChars_length]
    · intro c hc
      exact md5HexChars_mem _ c (List.mem_of_mem_take hc)

/-- Witness for C3: the spec's scenarios C and D — `/a/b/c` under
workspace root `/a` maps to `/mnt/ws/b/c` with no mount, and
`/etc/external` outside it maps to its fingerprint path with exactly
one mount request. -/
theorem C3_path_virtualization_witness :
    get_vm_path ["a"] "/mnt/ws" ["a", "b", "c"] = ("/mnt/ws/b/c", []) ∧
    get_vm_path ["a"] "/mnt/ws" ["etc", "external"] =
      (ext_guest_path "/etc/external",
       [("/etc/external", ext_guest_path "/etc/external")]) ∧
    ((md5HexOfString "/etc/external").take 8).length = 8 := by
  have h1 := (C3_path_virtualization ["a"] "/mnt/ws" ["a", "b", "c"]).1
    ["b", "c"] rfl
  have h2 := (C3_path_virtualization ["a"] "/mnt/ws" ["etc", "external"]).2
    (by decide)
  have e1 : joinGuest "/mnt/ws" ["b", "c"] = "/mnt/ws/b/c" := rfl
  have e2 : renderPath ["etc", "external"] = "/etc/external" := rfl
  rw [e1] at h1
  rw [e2] at h2
  exact ⟨h1, h2.1, h2.2.1⟩

/-- Unfolding the `*` arm of `globMatch`. -/
theorem globMatch_star (lit cs : List Char) :
    globMatch ('*' :: lit) cs =
      cs.tails.any fun suf => globMatch lit suf := by
  rw [globMatch.eq_def]
  simp

/-- A lone `*` matches any component. -/
theorem globMatch_star_all (cs : List Char) : globMatch ['*'] cs = true := by
  rw [globMatch_star, List.any_eq_true]
  exact ⟨[], (List.mem_tails _ _).mpr List.nil_suffix, rfl⟩

/-- Prepending `*` to a pattern absorbs any prefix of the subject. -/
theorem globMatch_star_cons (lit cs rest : List Char)
    (h : globMatch lit cs = true) :
    globMatch ('*' :: lit) (rest ++ cs) = true := by
  rw [globMatch_star, List.any_eq_true]
  exact ⟨cs, (List.mem_tails _ _).mpr (List.suffix_append rest cs), h⟩

/-- A literal pattern ending in `*` matches any extension of the
literal. -/
theorem globMatch_append_star (lit rest : List Char) (h : '*' ∉ lit) :
    globMatch (lit ++ ['*']) (lit ++ rest) = true := by
  induction lit with
  | nil => simpa using globMatch_star_all rest
  | cons l ls ih =>
    have hl : ¬ l = '*' := fun e => h (by simp [e])
    simp [globMatch, hl]
    exact ih fun m => h (List.mem_cons_of_mem _ m)

/-- An entry is excluded as soon as one pattern matches it. -/
theorem excludedHere_of_pat (pt : String) (hmem : pt ∈ excludePatterns)
    (p : List String) (flag : Bool)
    (hm : matchesPat (parsePat pt) p flag = true) :
    excludedHere p flag = true := by
  simp only [excludedHere, List.any_eq_true]
  exact ⟨pt, hmem, hm⟩

/-- An entry is excluded as soon as one of its leading runs is. -/
theorem entryExcluded_of_index (p : List String) (flag : Bool) (k : Nat)
    (hk : k < p.length)
    (hx : (if k + 1 < p.length then excludedHere (p.take (k + 1)) true
           else excludedHere p flag) = true) :
    entryExcluded p flag = true := by
  simp only [entryExcluded, List.any_eq_true]
  exact ⟨k, List.mem_range.mpr hk, hx⟩

/-- A pattern matching a root-level component excludes that entry (as a
directory) and everything beneath it. -/
theorem entryExcluded_root (pt : String) (hmem : pt ∈ excludePatterns)
    (c0 : String) (t : List String) (flag : Bool)
    (hm : matchesPat (parsePat pt) [c0] true = true)
    (hlen : t ≠ [] ∨ flag = true) :
    entryExcluded (c0 :: t) flag = true := by
  cases t with
  | nil =>
    refine entryExcluded_of_index [c0] flag 0 (by simp) ?_
    rw [if_neg (by simp)]
    have hf : flag = true := by
      rcases hlen with hl | hf
      · simp at hl
      · exact hf
    rw [hf]
    exact excludedHere_of_pat pt hmem [c0] true hm
  | cons t0 ts =>
    refine entryExcluded_of_index (c0 :: t0 :: ts) flag 0 (by simp) ?_
    rw [if_pos (by simp only [List.length_cons]; omega)]
    exact excludedHere_of_pat pt hmem [c0] true hm

/-- The `twister-out*` pattern matches every root component with the
`twister-out` prefix. -/
theorem matches_twister (s0 : String)
    (hpre : "twister-out".data <+: s0.data) :
    matchesPat (parsePat "/twister-out*/") [s0] true = true := by
  obtain ⟨rest, hrest⟩ := hpre
  rw [show parsePat "/twister-out*/" =
    ⟨true, true, ['t', 'w', 'i', 's', 't', 'e', 'r', '-', 'o', 'u', 't', '*']⟩
    from rfl]
  simp only [matchesPat]
  rw [show ("twister-out").data =
    ['t', 'w', 'i', 's', 't', 'e', 'r', '-', 'o', 'u', 't'] from rfl]
    at hrest
  simp only [Bool.not_true, Bool.false_or, if_true, Bool.true_and]
  rw [← hrest]
  exact globMatch_append_star
    ['t', 'w', 'i', 's', 't', 'e', 'r', '-', 'o', 'u', 't'] rest (by decide)

/-- The spec-level exclusions all trigger the rsync filter of
`sync_to_local`. -/
theorem claim_excluded_entryExcluded (p : List String) (flag : Bool)
    (hcl : claim_excluded p flag) : entryExcluded p flag = true := by
  rcases hcl with ⟨t, rfl, hlen⟩ | ⟨t, rfl, hlen⟩ | ⟨t, rfl, hlen⟩ |
    ⟨t, rfl, hlen⟩ | ⟨s0, t, rfl, hpre, hlen⟩ | ⟨pre, suf, rfl, hsuf⟩ |
    ⟨pre, b, rfl, hb⟩
  · exact entryExcluded_root "/.git/" (by decide) ".git" t flag
      (by decide) hlen
  · exact entryExcluded_root "/build/" (by decide) "build" t flag
      (by decide) hlen
  · exact entryExcluded_root "/builds/" (by decide) "builds" t flag
      (by decide) hlen
  · exact entryExcluded_root "/.cache/" (by decide) ".cache" t flag
      (by decide) hlen
  · exact entryExcluded_root "/twister-out*/" (by decide) s0 t flag
      (matches_twister s0 hpre) hlen
  · -- a `__pycache__` directory at any depth
    cases suf with
    | nil =>
      have hf : flag = true := by
        rcases hsuf with hl | hf
        · simp at hl
        · exact hf
      refine entryExcluded_of_index _ flag pre.length (by simp) ?_
      rw [if_neg (by simp), hf]
      apply excludedHere_of_pat "__pycache__/" (by decide)
      rw [show parsePat "__pycache__/" =
        ⟨false, true, ['_', '_', 'p', 'y', 'c', 'a', 'c', 'h', 'e', '_', '_']⟩
        from rfl]
      simp [matchesPat, List.getLast?_concat]
      decide
    | cons s1 suf2 =>
      refine entryExcluded_of_index _ flag pre.length (by simp) ?_
      rw [if_pos (by simp)]
      have htake : ((pre ++ ["__pycache__"] ++ (s1 :: suf2)).take
          (pre.length + 1)) = pre ++ ["__pycache__"] := by
        rw [List.append_assoc]
        rw [List.take_append 1]
        rfl
      rw [htake]
      apply excludedHere_of_pat "__pycache__/" (by decide)
      rw [show parsePat "__pycache__/" =
        ⟨false, true, ['_', '_', 'p', 'y', 'c', 'a', 'c', 'h', 'e', '_', '_']⟩
        from rfl]
      simp [matchesPat, List.getLast?_concat]
      decide
  · -- `*.pyc` / `*.o` basenames at any depth
    refine entryExcluded_of_index _ flag pre.length (by simp) ?_
    rw [if_neg (by simp)]
    rcases hb with hsuf | hsuf <;> obtain ⟨rest, hrest⟩ := hsuf
    · apply excludedHere_of_pat "*.pyc" (by decide)
      rw [show parsePat "*.pyc" = ⟨false, false, ['*', '.', 'p', 'y', 'c']⟩
        from rfl]
      simp [matchesPat, List.getLast?_concat]
      rw [show (".pyc").data = ['.', 'p', 'y', 'c'] from rfl] at hrest
      rw [← hrest]
      exact globMatch_star_cons ['.', 'p', 'y', 'c'] ['.', 'p', 'y', 'c']
        rest (by decide)
    · apply excludedHere_of_pat "*.o" (by decide)
      rw [show parsePat "*.o" = ⟨false, false, ['*', '.', 'o']⟩ from rfl]
      simp [matchesPat, List.getLast?_concat]
      rw [show (".o").data = ['.', 'o'] from rfl] at hrest
      rw [← hrest]
      exact globMatch_star_cons ['.', 'o'] ['.', 'o'] rest (by decide)

/-- C6: after `sync_to_local`, no entry of the destination tree
matches the exclusion set — no root-level `.git`, `build`, `builds`,
`.cache` or `twister-out*` directory (nor anything beneath one), no
`__pycache__` directory at any depth, and no `*.pyc` or `*.o` entry —
whatever the source tree contained. -/
theorem C6_mirror_excludes (src : List (List String × Bool))
    (p : List String) (flag : Bool)
    (hmem : (p, flag) ∈ sync_to_local_result src) :
    ¬ claim_excluded p flag := by
  intro hcl
  have hex := claim_excluded_entryExcluded p flag hcl
  have hfil := List.of_mem_filter hmem
  simp [hex] at hfil

/-- Witness for C6: from a source containing a `.git` tree, a build
tree, caches and objects, the surviving entry is clean. -/
theorem C6_mirror_excludes_witness :
    ¬ claim_excluded ["main.c"] false :=
  C6_mirror_excludes
    [([".git", "config"], false), (["build", "zephyr.elf"], false),
     (["app", "__pycache__"], true), (["app", "x.pyc"], false),
     (["main.c"], false)]
    ["main.c"] false (by decide)

/-- Flooring a rational and then taking integer (Euclidean) division
by a positive natural equals flooring the rational quotient. -/
theorem floor_div_int_nat (x : ℚ) (n : ℕ) (hn : 0 < n) :
    ⌊x / (n : ℚ)⌋ = ⌊x⌋ / (n : ℤ) := by
  have hq : (0 : ℚ) < (n : ℚ) := by exact_mod_cast hn
  have hz : (0 : ℤ) < (n : ℤ) := by exact_mod_cast hn
  apply le_antisymm
  · have h1 : (⌊x / (n : ℚ)⌋ : ℚ) ≤ x / (n : ℚ) := Int.floor_le _
    have h2 : (⌊x / (n : ℚ)⌋ : ℚ) * (n : ℚ) ≤ x := (le_div_iff₀ hq).mp h1
    have h3 : ⌊x / (n : ℚ)⌋ * (n : ℤ) ≤ ⌊x⌋ :=
      Int.le_floor.mpr (by push_cast; exact h2)
    exact (Int.le_ediv_iff_mul_le hz).mpr h3
  · have h1 : ⌊x⌋ / (n : ℤ) * (n : ℤ) ≤ ⌊x⌋ := Int.ediv_mul_le _ hz.ne.symm
    have h2 : ((⌊x⌋ / (n : ℤ) : ℤ) : ℚ) * (n : ℚ) ≤ x := by
      calc ((⌊x⌋ / (n : ℤ) : ℤ) : ℚ) * (n : ℚ) ≤ (⌊x⌋ : ℚ) := by
            exact_mod_cast h1
        _ ≤ x := Int.floor_le x
    exact Int.le_floor.mpr ((le_div_iff₀ hq).mpr h2)

/-- The spec's rational formula, after pushing the floor inward, is the
Euclidean-division expression
`max (4 GiB) (min ((3T)/4) (T - 4 GiB)) / GiB`. -/
theorem spec_high_memory_gb_eq (T : Int) :
    spec_high_memory_gb T =
      max (4 * GiB) (min ((3 * T) / 4) (T - 4 * GiB)) / GiB := by
  unfold spec_high_memory_gb
  rw [show ((3 : ℚ) / 4) * (T : ℚ) = ((3 * T : ℤ) : ℚ) / ((4 : ℕ) : ℚ) by
    push_cast; ring]
  rw [show (T : ℚ) - 4 * ((GiB : ℤ) : ℚ) = ((T - 4 * GiB : ℤ) : ℚ) by
    push_cast; ring]
  rw [show ((GiB : ℤ) : ℚ) = ((1073741824 : ℕ) : ℚ) by norm_num [GiB]]
  rw [floor_div_int_nat _ _ (by norm_num)]
  have hmax : ∀ u v : ℚ, ⌊max u v⌋ = max ⌊u⌋ ⌊v⌋ := fun u v =>
    Monotone.map_max Int.floor_mono
  have hmin : ∀ u v : ℚ, ⌊min u v⌋ = min ⌊u⌋ ⌊v⌋ := fun u v =>
    Monotone.map_min Int.floor_mono
  rw [hmax, hmin]
  rw [Int.floor_intCast, Int.floor_intCast, Rat.floor_intCast_div_natCast]
  norm_num [GiB]

/-- The exact-arithmetic memory computation of `get_host_resources`
equals the spec's formula for every nonnegative byte total. -/
theorem code_gb_eq_spec (T : Int) (hT : 0 ≤ T) :
    max 4 (Int.tdiv (min (Int.tdiv (3 * T) 4) (T - 4 * GiB)) GiB) =
      spec_high_memory_gb T := by
  rw [spec_high_memory_gb_eq]
  have hgpos : (0 : ℤ) < GiB := by norm_num [GiB]
  have hA : Int.tdiv (3 * T) 4 = (3 * T) / 4 :=
    Int.tdiv_eq_ediv (by positivity) (by norm_num)
  rw [hA]
  set m := min ((3 * T) / 4) (T - 4 * GiB) with hm
  rcases le_or_lt (4 * GiB) m with hge | hlt
  · have hm0 : 0 ≤ m := le_trans (by positivity) hge
    rw [Int.tdiv_eq_ediv hm0 hgpos.le]
    rw [max_eq_right hge]
    rw [max_eq_right]
    calc (4 : ℤ) = 4 * GiB / GiB := (Int.mul_ediv_cancel 4 hgpos.ne.symm).symm
      _ ≤ m / GiB := Int.ediv_le_ediv hgpos hge
  · rw [max_eq_left hlt.le, Int.mul_ediv_cancel 4 hgpos.ne.symm]
    rw [max_eq_left]
    rcases le_or_lt 0 m with hm0 | hm0
    · rw [Int.tdiv_eq_ediv hm0 hgpos.le]
      calc m / GiB ≤ (4 * GiB - 1) / GiB :=
            Int.ediv_le_ediv hgpos (by omega)
        _ ≤ 4 := by decide
    · have : Int.tdiv m GiB ≤ 0 := by
        rw [show m = -(-m) from (neg_neg m).symm, Int.neg_tdiv]
        exact neg_nonpos.mpr (Int.tdiv_nonneg (by omega) hgpos.le)
      omega

/-- C8: `get_host_resources` returns
`cpus = max(2, hostLogicalCores - 2)` and the memory string whose GiB
count is `max(4 GiB, min(0.75 * total, total - 4 GiB))` floored to
whole GiB (the spec's rational formula), where the total is the per-OS
memory reading and 8 GiB when introspection failed.  The embedding
computes `int(total * 0.75)` and `int(limit / 2^30)` exactly; Python's
double-precision detour coincides with these for every total below
`2^51` bytes. -/
theorem C8_high_profile_resources (h : HostInfo)
    (hT : 0 ≤ h.memBytes.getD (8 * GiB)) :
    get_host_resources h =
      (max 2 (h.cpuCount - 2),
       toString (spec_high_memory_gb (h.memBytes.getD (8 * GiB))) ++ "G") ∧
    (h.memBytes = none →
      get_host_resources h = (max 2 (h.cpuCount - 2), "4G")) := by
  constructor
  · simp only [get_host_resources]
    rw [code_gb_eq_spec _ hT]
  · intro hnone
    simp only [get_host_resources, hnone, Option.getD_none]
    norm_num [GiB, Int.tdiv]
    rfl

/-- Witness for C8 on a 8-core, 32 GiB host and on a host whose memory
introspection failed. -/
theorem C8_high_profile_resources_witness :
    get_host_resources ⟨8, some 34359738368⟩ =
      (max 2 ((8 : Int) - 2),
       toString (spec_high_memory_gb
         ((some (34359738368 : Int)).getD (8 * GiB))) ++ "G") ∧
    get_host_resources ⟨4, none⟩ = (max 2 ((4 : Int) - 2), "4G") :=
  ⟨(C8_high_profile_resources ⟨8, some 34359738368⟩ (by decide)).1,
   (C8_high_profile_resources ⟨4, none⟩ (by decide)).2 rfl⟩

end MPZ
